import Mathlib

/-!
Verification development for the dunsMatch repository (package dunsMatchAPI).

The Python sources are shallowly embedded: JSON values (Python dicts as produced
by response.json and json.load) become the inductive JValue; dynamically typed
scalar cell values coming from pandas become PyVal; stateful code (the SQLAlchemy
session in DatabaseManager.populate_from_json_files, the requests session and
token cache in DIR_API) becomes explicit state passing.  Network and filesystem
effects are parameters: each outbound HTTP call is given its outcome (HttpResp),
and each JSON file on disk is given its parse outcome (FileInput).
-/

/-- Model of a Python/JSON value, as handled by response.json and json.load.
Object fields keep insertion order, mirroring Python dict semantics. -/
inductive JValue where
  | null
  | bool (b : Bool)
  | num (n : Int)
  | str (s : String)
  | arr (xs : List JValue)
  | obj (fields : List (String × JValue))

mutual

/-- Structural equality on JValue, mirroring the Python == used on values
pulled out of parsed JSON (e.g. error_code == the string 20505). -/
def JValue.beq : JValue → JValue → Bool
  | .null, .null => true
  | .bool a, .bool b => a == b
  | .num a, .num b => a == b
  | .str a, .str b => a == b
  | .arr xs, .arr ys => JValue.beqArr xs ys
  | .obj xs, .obj ys => JValue.beqObj xs ys
  | _, _ => false

/-- Elementwise equality of JSON arrays. -/
def JValue.beqArr : List JValue → List JValue → Bool
  | [], [] => true
  | x :: xs, y :: ys => JValue.beq x y && JValue.beqArr xs ys
  | _, _ => false

/-- Fieldwise equality of JSON objects (order-sensitive, like comparing the
underlying association lists). -/
def JValue.beqObj : List (String × JValue) → List (String × JValue) → Bool
  | [], [] => true
  | (k1, v1) :: xs, (k2, v2) :: ys => k1 == k2 && JValue.beq v1 v2 && JValue.beqObj xs ys
  | _, _ => false

end

mutual

theorem JValue.beq_refl : ∀ a : JValue, JValue.beq a a = true
  | .null => rfl
  | .bool b => by simp [JValue.beq]
  | .num n => by simp [JValue.beq]
  | .str s => by simp [JValue.beq]
  | .arr xs => by simp [JValue.beq, JValue.beqArr_refl xs]
  | .obj xs => by simp [JValue.beq, JValue.beqObj_refl xs]

theorem JValue.beqArr_refl : ∀ xs : List JValue, JValue.beqArr xs xs = true
  | [] => rfl
  | x :: xs => by simp [JValue.beqArr, JValue.beq_refl x, JValue.beqArr_refl xs]

theorem JValue.beqObj_refl : ∀ xs : List (String × JValue), JValue.beqObj xs xs = true
  | [] => rfl
  | (k, v) :: xs => by simp [JValue.beqObj, JValue.beq_refl v, JValue.beqObj_refl xs]

end

/-- Python dict lookup d[k] as an Option: first field with the given key. -/
def jGet (j : JValue) (k : String) : Option JValue :=
  match j with
  | .obj fs => fs.lookup k
  | _ => none

/-- Python dict.get(k, default) on a parsed JSON value. -/
def jGetD (j : JValue) (k : String) (d : JValue) : JValue :=
  (jGet j k).getD d

/-- Python membership test (k in d) on a parsed JSON object. -/
def jHasKey (j : JValue) (k : String) : Bool :=
  (jGet j k).isSome

/-- Whether the value is a JSON object (a Python dict). -/
def JValue.isObj : JValue → Bool
  | .obj _ => true
  | _ => false

/-- The element list of a JSON array; non-arrays iterate as empty here
(the embedded code only iterates values that are lists in the API contract). -/
def asArr : JValue → List JValue
  | .arr xs => xs
  | _ => []

/-- Classification of an IEEE value for the symbolic Python float model.
No float arithmetic occurs in the repository, so a float is only ever
inspected for NaN/infinity or rendered by str; finite carries that rendering. -/
inductive FloatKind where
  | finite (repr : String)
  | nan
  | inf
  | negInf
  deriving DecidableEq

/-- Model of a dynamically typed Python scalar as read from a pandas cell:
the builtin types plus the NumPy scalar types that _clean_value singles out. -/
inductive PyVal where
  | none
  | pyBool (b : Bool)
  | pyInt (n : Int)
  | pyFloat (k : FloatKind)
  | pyStr (s : String)
  | npFloat64 (k : FloatKind)
  | npFloat32 (k : FloatKind)
  | npInt64 (n : Int)
  | npInt32 (n : Int)
  deriving DecidableEq

/-- pandas pd.isna on a scalar: true for None and for float NaN values
(builtin or NumPy); false for infinities, strings, bools and ints. -/
def pdIsna : PyVal → Bool
  | .none => true
  | .pyFloat .nan => true
  | .npFloat64 .nan => true
  | .npFloat32 .nan => true
  | _ => false

/-- Python isinstance(value, (np.float64, np.float32, np.int64, np.int32)). -/
def isNpNumeric : PyVal → Bool
  | .npFloat64 _ => true
  | .npFloat32 _ => true
  | .npInt64 _ => true
  | .npInt32 _ => true
  | _ => false

/-- Python np.isnan(value) or np.isinf(value) on one of the NumPy scalar
types above (always false on integer values). -/
def npNanOrInf : PyVal → Bool
  | .npFloat64 .nan => true
  | .npFloat64 .inf => true
  | .npFloat64 .negInf => true
  | .npFloat32 .nan => true
  | .npFloat32 .inf => true
  | .npFloat32 .negInf => true
  | _ => false

/-- Python str(value) on a scalar. -/
def pyStrOf : PyVal → String
  | .none => "None"
  | .pyBool b => if b then "True" else "False"
  | .pyInt n => toString n
  | .pyFloat (.finite r) => r
  | .pyFloat .nan => "nan"
  | .pyFloat .inf => "inf"
  | .pyFloat .negInf => "-inf"
  | .pyStr s => s
  | .npFloat64 (.finite r) => r
  | .npFloat64 .nan => "nan"
  | .npFloat64 .inf => "inf"
  | .npFloat64 .negInf => "-inf"
  | .npFloat32 (.finite r) => r
  | .npFloat32 .nan => "nan"
  | .npFloat32 .inf => "inf"
  | .npFloat32 .negInf => "-inf"
  | .npInt64 n => toString n
  | .npInt32 n => toString n

/-- Embedding of utils._clean_value: empty string when pd.isna(value) or
value is None; empty string for the listed NumPy scalar types when NaN or
infinite; otherwise str(value). -/
def clean_value (v : PyVal) : String :=
  if pdIsna v || v = PyVal.none then ""
  else if isNpNumeric v && npNanOrInf v then ""
  else pyStrOf v

/-- Python str.upper, charwise (the inputs compared against CN are
two-letter ASCII country codes). -/
def pyUpper (s : String) : String :=
  String.mk (s.data.map Char.toUpper)

/-- Outcome of Matcher.match_company input handling before any network use:
either the record is rejected (ValueError raised) or a GET request with these
query parameters is issued.  Transcribed from matcher.py lines 45-72. -/
inductive MatchAction where
  | rejected (msg : String)
  | request (params : List (String × String))
  deriving DecidableEq

/-- Embedding of the input-cleaning and parameter-building prefix of
Matcher.match_company: clean the three inputs with _clean_value, raise
ValueError when the cleaned company name is empty, otherwise build the query
parameters (address only when non-empty, inLanguage from the country code). -/
def matchCompanyParams (company_name country address : PyVal) : MatchAction :=
  let n := clean_value company_name
  let c := clean_value country
  let a := clean_value address
  if n = "" then .rejected "Company name is required"
  else
    let ps := [("name", n), ("countryISOAlpha2Code", c)]
    let ps := if a ≠ "" then ps ++ [("streetAddressLine1", a)] else ps
    let ps := ps ++ [("inLanguage", if pyUpper c = "CN" then "zh-hans-CN" else "auto")]
    .request ps

/-- True when the action is the ValueError rejection branch. -/
def MatchAction.isRejected : MatchAction → Bool
  | .rejected _ => true
  | .request _ => false

/-- Embedding of utils._extract_comprehensive_info: flattens one provider
match candidate into the comprehensive dict, preserving Python dict key
insertion order.  Note that match_grade_components, match_data_profile and
name_match_score are assigned as top-level keys of comprehensive_info, while
the match_quality sub-dict holds only confidence_code, match_grade and
match_grade_components_count (utils.py lines 74-93). -/
def extract_comprehensive_info (candidate : JValue) : JValue :=
  let org := jGetD candidate "organization" (.obj [])
  let dcs := jGetD org "dunsControlStatus" (.obj [])
  let opst := jGetD dcs "operatingStatus" (.obj [])
  let pa := jGetD org "primaryAddress" (.obj [])
  let ac := jGetD pa "addressCountry" (.obj [])
  let ar := jGetD pa "addressRegion" (.obj [])
  let sa := jGetD pa "streetAddress" (.obj [])
  let mq := jGetD candidate "matchQualityInformation" (.obj [])
  let comps := asArr (jGetD mq "matchGradeComponents" (.arr []))
  .obj [
    ("duns", jGetD org "duns" (.str "")),
    ("primary_name", jGetD org "primaryName" (.str "")),
    ("website_address", jGetD org "websiteAddress" (.arr [])),
    ("trade_style_names", jGetD org "tradeStyleNames" (.arr [])),
    ("telephone", jGetD org "telephone" (.arr [])),
    ("operating_status", .obj [
      ("description", jGetD opst "description" (.str "")),
      ("dnb_code", jGetD opst "dnbCode" (.str ""))]),
    ("is_mail_undeliverable", jGetD dcs "isMailUndeliverable" .null),
    ("address", .obj [
      ("country", .obj [
        ("iso_alpha2_code", jGetD ac "isoAlpha2Code" (.str "")),
        ("name", jGetD ac "name" (.str ""))]),
      ("region", .obj [
        ("name", jGetD ar "name" (.str "")),
        ("abbreviated_name", jGetD ar "abbreviatedName" (.str ""))]),
      ("postal_code", jGetD pa "postalCode" (.str "")),
      ("postal_code_extension", jGetD pa "postalCodeExtension" (.str "")),
      ("street", .obj [
        ("line1", jGetD sa "line1" (.str "")),
        ("line2", jGetD sa "line2" (.str ""))])]),
    ("match_quality", .obj [
      ("confidence_code", jGetD mq "confidenceCode" (.num 0)),
      ("match_grade", jGetD mq "matchGrade" (.str "")),
      ("match_grade_components_count", jGetD mq "matchGradeComponentsCount" (.num 0))]),
    ("match_grade_components", .arr (comps.map (fun c => .obj [
      ("component_type", jGetD c "componentType" (.str "")),
      ("component_rating", jGetD c "componentRating" (.str ""))]))),
    ("match_data_profile", jGetD mq "matchDataProfile" (.str "")),
    ("name_match_score", jGetD mq "nameMatchScore" .null)
  ]

/-- Exception taxonomy relevant to Matcher.match_company: ValueError from
input validation, requests.exceptions.RequestException subclasses (the type
the tenacity retry predicate tests for), and plain Exception (what the two
except blocks re-raise). -/
inductive MatchExn where
  | valueError (msg : String)
  | requestExn (msg : String)
  | generic (msg : String)
  deriving DecidableEq

/-- Python isinstance(e, requests.exceptions.RequestException), the predicate
given to tenacity via retry_if_exception_type. -/
def MatchExn.isRequestExn : MatchExn → Bool
  | .requestExn _ => true
  | _ => false

/-- Outcome of one outbound session.get: either a transport-level failure
(connection error or timeout, raised as a RequestException by requests), or a
response with an HTTP status, a JSON body when the body parses, and the raw
body text. -/
inductive HttpResp where
  | transportError (msg : String)
  | resp (status : Nat) (jsonBody : Option JValue) (text : String)

/-- Embedding of one un-decorated call of Matcher.match_company
(matcher.py lines 33-118) given the outcome of its single session.get:
input cleaning and ValueError; on 2xx parse the body and map each entry of
matchCandidates through extract_comprehensive_info; inside the HTTPError
branch return the empty list for a 404 whose parsed body carries
error.errorCode equal to the string 20505; raise plain Exception for 401,
for every other HTTP error status, and (via the RequestException branch)
for every transport failure.  The str rendering of the original HTTPError
inside the message is abstracted to the status number. -/
def matchCompanyOnce (company_name country address : PyVal) (r : HttpResp) :
    Except MatchExn (List JValue) :=
  match matchCompanyParams company_name country address with
  | .rejected msg => .error (.valueError msg)
  | .request _ =>
    match r with
    | .transportError msg => .error (.generic ("Network error: " ++ msg))
    | .resp status jsonBody text =>
      if 400 ≤ status then
        let noMatch404 : Bool :=
          status = 404 &&
          match jsonBody with
          | some j =>
            JValue.beq (jGetD (jGetD j "error" (.obj [])) "errorCode" (.str ""))
              (.str "20505")
          | none => false
        if noMatch404 then .ok []
        else if status = 401 then
          .error (.generic "Authentication failed. Check your API credentials.")
        else
          .error (.generic ("API request failed: " ++ toString status ++ "\n" ++ text))
      else
        match jsonBody with
        | none => .error (.generic ("Network error: invalid JSON body " ++ text))
        | some data =>
          .ok ((asArr (jGetD data "matchCandidates" (.arr []))).map
            extract_comprehensive_info)

/-- The tenacity retry loop around match_company with
retry=retry_if_exception_type(RequestException) and stop_after_attempt(3):
re-invoke the body only when it raised a RequestException and fewer than 3
attempts have been made; responses gives the outcome of the session.get of
each attempt (1-based).  Returns the 1-based number of the attempt on which
the call settled together with its result. -/
def retryGo (responses : Nat → HttpResp) (company_name country address : PyVal)
    (attempt fuel : Nat) : Nat × Except MatchExn (List JValue) :=
  match fuel with
  | 0 => (attempt, matchCompanyOnce company_name country address (responses attempt))
  | fuel' + 1 =>
    match matchCompanyOnce company_name country address (responses attempt) with
    | .ok v => (attempt, .ok v)
    | .error e =>
      if e.isRequestExn then
        retryGo responses company_name country address (attempt + 1) fuel'
      else (attempt, .error e)

/-- Embedding of the decorated Matcher.match_company: the retry loop started
at attempt 1 with budget for 2 further attempts (3 attempts total). -/
def match_company (responses : Nat → HttpResp) (company_name country address : PyVal) :
    Nat × Except MatchExn (List JValue) :=
  retryGo responses company_name country address 1 2

/-- One normalized input row of the legacy end-to-end routine
match_companies_from_excel, after load/rename/fillna/astype(str)
(client.py lines 652-695): all three columns are strings. -/
structure ExcelRow where
  company_name : String
  country : String
  address : String
  deriving DecidableEq

/-- Outcome of the client.match_company call for one row inside the legacy
routine: either the list of normalized matches, or a raised exception whose
str rendering is msg. -/
inductive RowOutcome where
  | ok (ms : List JValue)
  | exn (msg : String)

/-- One output spreadsheet row of match_companies_from_excel, with exactly
the keys of the result dicts built in client.py lines 717-773. -/
structure OutRow where
  input_company_name : JValue
  input_country : JValue
  input_address : JValue
  matched_duns : JValue
  matched_primary_name : JValue
  match_confidence_code : JValue
  match_grade : JValue
  operating_status : JValue
  country_name : JValue
  region_name : JValue
  postal_code : JValue
  street_address : JValue
  match_number : JValue
  total_matches : JValue
  full_response : JValue

/-- The output row built for one match candidate (client.py lines 717-734);
i is the 0-based enumerate index, total the number of matches of the row.
The json.dumps text of the candidate is abstracted to the candidate value. -/
def matchRow (r : ExcelRow) (i : Nat) (total : Nat) (m : JValue) : OutRow :=
  let addr := jGetD m "address" (.obj [])
  { input_company_name := .str r.company_name
    input_country := .str r.country
    input_address := .str r.address
    matched_duns := jGetD m "duns" (.str "")
    matched_primary_name := jGetD m "primary_name" (.str "")
    match_confidence_code := jGetD (jGetD m "match_quality" (.obj [])) "confidence_code" (.num 0)
    match_grade := jGetD (jGetD m "match_quality" (.obj [])) "match_grade" (.str "")
    operating_status := jGetD (jGetD m "operating_status" (.obj [])) "description" (.str "")
    country_name := jGetD (jGetD addr "country" (.obj [])) "name" (.str "")
    region_name := jGetD (jGetD addr "region" (.obj [])) "name" (.str "")
    postal_code := jGetD addr "postal_code" (.str "")
    street_address := jGetD (jGetD addr "street" (.obj [])) "line1" (.str "")
    match_number := .num (Int.ofNat i + 1)
    total_matches := .num (Int.ofNat total)
    full_response := m }

/-- The single output row emitted when a row yields zero matches
(client.py lines 737-753). -/
def noMatchRow (r : ExcelRow) : OutRow :=
  { input_company_name := .str r.company_name
    input_country := .str r.country
    input_address := .str r.address
    matched_duns := .str "NO MATCH FOUND"
    matched_primary_name := .str ""
    match_confidence_code := .num 0
    match_grade := .str ""
    operating_status := .str ""
    country_name := .str ""
    region_name := .str ""
    postal_code := .str ""
    street_address := .str ""
    match_number := .num 0
    total_matches := .num 0
    full_response := .str "No matches found for the given input criteria" }

/-- The single output row emitted when matching a row raised an exception
with message msg (client.py lines 755-773). -/
def errorRow (r : ExcelRow) (msg : String) : OutRow :=
  { input_company_name := .str r.company_name
    input_country := .str r.country
    input_address := .str r.address
    matched_duns := .str "ERROR"
    matched_primary_name := .str ""
    match_confidence_code := .num 0
    match_grade := .str ""
    operating_status := .str ""
    country_name := .str ""
    region_name := .str ""
    postal_code := .str ""
    street_address := .str ""
    match_number := .num 0
    total_matches := .num 0
    full_response := .str msg }

/-- The output rows appended for one input row of the legacy routine: the
per-candidate rows on success, the single NO MATCH FOUND row on an empty
match list, the single ERROR row when matching raised. -/
def rowResults (r : ExcelRow) : RowOutcome → List OutRow
  | .ok ms =>
    if ms.isEmpty then [noMatchRow r]
    else ms.mapIdx (fun i m => matchRow r i ms.length m)
  | .exn msg => [errorRow r msg]

/-- Embedding of the row loop of match_companies_from_excel (client.py lines
704-773): each input row is paired with the outcome of its matching call and
contributes its rows to the accumulated results in order. -/
def matchCompaniesRows (pairs : List (ExcelRow × RowOutcome)) : List OutRow :=
  pairs.flatMap (fun p => rowResults p.1 p.2)

/-- A companies table row (models.Company): surrogate id plus the values
stored by populate_from_json_files; duns is whatever value the snapshot
held under the duns key. -/
structure CompanyRow where
  id : Nat
  duns : JValue
  primary_name : JValue
  operating_status_description : JValue
  operating_status_dnb_code : JValue
  is_mail_undeliverable : JValue

/-- An addresses table row (models.Address). -/
structure AddressRow where
  company_id : Nat
  country_iso_alpha2_code : JValue
  country_name : JValue
  region_name : JValue
  region_abbreviated_name : JValue
  postal_code : JValue
  postal_code_extension : JValue
  street_line1 : JValue
  street_line2 : JValue

/-- A telephone_numbers table row (models.TelephoneNumber). -/
structure TelephoneRow where
  company_id : Nat
  telephone_number : JValue
  is_unreachable : JValue

/-- A website_addresses table row (models.WebsiteAddress). -/
structure WebsiteRow where
  company_id : Nat
  website_address : JValue

/-- A trade_style_names table row (models.TradeStyleName). -/
structure TradeStyleRow where
  company_id : Nat
  name : JValue

/-- A match_results table row (models.MatchResult); full_response holds the
whole snapshot value whose json.dumps text the code stores. -/
structure MatchResultRow where
  company_id : Nat
  input_company_name : JValue
  input_country : JValue
  input_address : JValue
  match_confidence_code : JValue
  match_grade : JValue
  full_response : JValue

/-- A match_queries table row (models.MatchQuery). -/
structure MatchQueryRow where
  company_name : JValue
  country : JValue
  address : JValue
  total_matches : Nat

/-- The relational store: one list per table, plus the autoincrement counter
for companies.id (the only surrogate key other rows reference).  The
created_at timestamp columns are not modelled (no claim concerns them). -/
structure DB where
  nextCompanyId : Nat
  companies : List CompanyRow
  addresses : List AddressRow
  telephones : List TelephoneRow
  websites : List WebsiteRow
  tradeStyles : List TradeStyleRow
  matchResults : List MatchResultRow
  matchQueries : List MatchQueryRow

/-- The empty database (fresh schema). -/
def emptyDB : DB :=
  { nextCompanyId := 1, companies := [], addresses := [], telephones := [],
    websites := [], tradeStyles := [], matchResults := [], matchQueries := [] }

/-- Embedding of the per-match body of populate_from_json_files
(database.py lines 115-202): look the company up by duns and insert it only
when absent, then always append one address, the telephone/website/trade
style rows, and one match result, all carrying the resolved company id. -/
def processMatch (inputName inputCountry inputAddress fullData : JValue)
    (m : JValue) (db : DB) : DB :=
  let duns := jGetD m "duns" (.str "")
  let primary := jGetD m "primary_name" (.str "")
  let opst := jGetD m "operating_status" (.obj [])
  let found := db.companies.find? (fun c => JValue.beq c.duns duns)
  let cid := match found with
    | some c => c.id
    | none => db.nextCompanyId
  let db := match found with
    | some _ => db
    | none =>
      { db with
        companies := db.companies ++ [({
          id := db.nextCompanyId
          duns := duns
          primary_name := primary
          operating_status_description := jGetD opst "description" (.str "")
          operating_status_dnb_code := jGetD opst "dnb_code" .null
          is_mail_undeliverable := jGetD m "is_mail_undeliverable" .null } : CompanyRow)]
        nextCompanyId := db.nextCompanyId + 1 }
  let ad := jGetD m "address" (.obj [])
  let cd := jGetD ad "country" (.obj [])
  let rd := jGetD ad "region" (.obj [])
  let sd := jGetD ad "street" (.obj [])
  let db :=
    { db with addresses := db.addresses ++ [({
        company_id := cid
        country_iso_alpha2_code := jGetD cd "iso_alpha2_code" (.str "")
        country_name := jGetD cd "name" (.str "")
        region_name := jGetD rd "name" (.str "")
        region_abbreviated_name := jGetD rd "abbreviated_name" (.str "")
        postal_code := jGetD ad "postal_code" (.str "")
        postal_code_extension := jGetD ad "postal_code_extension" (.str "")
        street_line1 := jGetD sd "line1" (.str "")
        street_line2 := jGetD sd "line2" (.str "") } : AddressRow)] }
  let db :=
    { db with telephones := db.telephones ++
        (asArr (jGetD m "telephone" (.arr []))).map (fun t => ({
          company_id := cid
          telephone_number := jGetD t "telephoneNumber" (.str "")
          is_unreachable := jGetD t "isUnreachableIndicator" (.bool false) } : TelephoneRow)) }
  let db :=
    { db with websites := db.websites ++
        (asArr (jGetD m "website_address" (.arr []))).map (fun w => ({
          company_id := cid
          website_address := w } : WebsiteRow)) }
  let db :=
    { db with tradeStyles := db.tradeStyles ++
        (asArr (jGetD m "trade_style_names" (.arr []))).map (fun t => ({
          company_id := cid
          name := jGetD t "name" (.str "") } : TradeStyleRow)) }
  let mq := jGetD m "match_quality" (.obj [])
  { db with matchResults := db.matchResults ++ [({
      company_id := cid
      input_company_name := inputName
      input_country := inputCountry
      input_address := inputAddress
      match_confidence_code := jGetD mq "confidence_code" (.num 0)
      match_grade := jGetD mq "match_grade" (.str "")
      full_response := fullData } : MatchResultRow)] }

/-- Embedding of the per-file body of populate_from_json_files for a parsed
non-error snapshot (database.py lines 90-202): append the match query row,
then process each entry of the matches list in order. -/
def processFileData (data : JValue) (db : DB) : DB :=
  let inputName := jGetD data "input_company_name" (.str "")
  let inputCountry := jGetD data "input_country" (.str "")
  let inputAddress := jGetD data "input_address" (.str "")
  let ms := asArr (jGetD data "matches" (.arr []))
  let db :=
    { db with matchQueries := db.matchQueries ++ [({
        company_name := inputName
        country := inputCountry
        address := inputAddress
        total_matches := ms.length } : MatchQueryRow)] }
  ms.foldl (fun db m => processMatch inputName inputCountry inputAddress data m db) db

/-- What one JSON file on disk yields to populate_from_json_files: a parsed
value, or an exception from open/json.load (missing or malformed file). -/
inductive FileInput where
  | parsed (data : JValue)
  | ioError

/-- Whether the file processes without raising: it parsed, and the parsed
value is a dict (on a non-dict, the membership test and .get calls raise,
landing in the same per-file except block as a read failure). -/
def goodFile : FileInput → Bool
  | .parsed data => data.isObj
  | .ioError => false

/-- One iteration of the file loop of populate_from_json_files
(database.py lines 79-209): base is the session state at the start of the
still-uncommitted transaction (everything since the last rollback is pending);
returns the new working state and whether processed_count was incremented.
An exception (read failure or non-dict data) triggers session.rollback(),
which discards every pending row — the working state reverts to base.
A snapshot with an error key is skipped but counted. -/
def fileStep (base work : DB) : FileInput → DB × Bool
  | .ioError => (base, false)
  | .parsed data =>
    if data.isObj then
      if jHasKey data "error" then (work, true)
      else (processFileData data work, true)
    else (base, false)

/-- The file loop: thread the working state and processed_count through the
files.  base stays fixed because the code never commits inside the loop —
rollback always reverts to the state the session had on entry. -/
def populateLoop (base : DB) (files : List FileInput) (work : DB) (count : Nat) :
    Nat × DB :=
  match files with
  | [] => (count, work)
  | f :: fs =>
    let (work', counted) := fileStep base work f
    populateLoop base fs work' (if counted then count + 1 else count)

/-- Embedding of DatabaseManager.populate_from_json_files: run the file loop
on the session opened over db, then commit (the single end-of-batch commit,
database.py line 212, modelled as succeeding); returns processed_count and
the database state after the commit. -/
def populate_from_json_files (db : DB) (files : List FileInput) : Nat × DB :=
  populateLoop db files db 0

/-- The process environment as read by the DIR_API constructor: the values of
DNB_API_KEY, DNB_API_SECRET and DNB_API_URL (none when unset). -/
structure Env where
  dnbApiKey : Option String
  dnbApiSecret : Option String
  dnbApiUrl : Option String

/-- Python (a or b) on optional strings: a unless it is falsy (None or the
empty string), else b. -/
def pyOr (a b : Option String) : Option String :=
  match a with
  | some s => if s = "" then b else some s
  | none => b

/-- Python truthiness of an optional string: false for None and the empty
string. -/
def pyTruthy : Option String → Bool
  | some s => s ≠ ""
  | none => false

/-- State of one DIR_API client instance: resolved credentials and URL, the
cached bearer token (None until the first authentication; the expiry check is
absorbed into token presence, since no claim concerns clock-driven expiry),
and the identity of the requests.Session the constructor created. -/
structure ClientState where
  api_key : String
  api_secret : String
  api_url : String
  access_token : Option String
  session : Nat

/-- Embedding of the DIR_API constructor (client.py lines 24-46): each field
falls back from the explicit argument to the environment variable (with the
URL defaulting to the public endpoint), and construction raises ValueError
when key or secret is still falsy; sid names the fresh requests.Session the
constructor makes. -/
def DIR_API_new (api_key api_secret api_url : Option String) (env : Env)
    (sid : Nat) : Except String ClientState :=
  let key := pyOr api_key env.dnbApiKey
  let sec := pyOr api_secret env.dnbApiSecret
  let url := pyOr api_url (some (env.dnbApiUrl.getD "https://plus.dnb.com"))
  if !pyTruthy key || !pyTruthy sec then
    .error "API credentials not provided. Set DNB_API_KEY and DNB_API_SECRET environment variables or pass them to the constructor."
  else
    .ok { api_key := key.getD "", api_secret := sec.getD "",
          api_url := url.getD "", access_token := none, session := sid }

/-- Embedding of DIR_API._ensure_authenticated: authenticate (symbolically
deriving the bearer token from the credentials the token exchange would use)
when no token is cached. -/
def ensureAuthenticated (st : ClientState) : ClientState :=
  match st.access_token with
  | some _ => st
  | none =>
    { st with access_token := some ("token:" ++ st.api_key ++ ":" ++ st.api_secret) }

/-- Record of one outbound cleanseMatch call inside DIR_API.request: which
credentials, base URL, bearer token and session it went out with. -/
structure MatchCallRec where
  key : String
  secret : String
  url : String
  bearer : String
  session : Nat
  row : ExcelRow

/-- Embedding of one client.match_company call made by the batch loop, as it
affects client state and the outbound call: ensure a token, then issue the
GET with the instance's session, URL and bearer headers. -/
def clientCall (st : ClientState) (r : ExcelRow) : ClientState × MatchCallRec :=
  let st := ensureAuthenticated st
  (st, { key := st.api_key, secret := st.api_secret, url := st.api_url,
         bearer := st.access_token.getD "", session := st.session, row := r })

/-- Embedding of DIR_API.request (client.py lines 310-381) restricted to its
interaction with client instances: it constructs a brand-new DIR_API from
environment credentials only (client.py line 325, with a fresh session sid)
and drives every per-row match_company call through that new instance; the
instance the method was invoked on is returned unchanged.  File writing is
not modelled; row outcomes do not feed back into client state. -/
def requestStep (acc : ClientState × List MatchCallRec) (r : ExcelRow) :
    ClientState × List MatchCallRec :=
  let step := clientCall acc.1 r
  (step.1, acc.2 ++ [step.2])

/-- Embedding of DIR_API.request as a whole: construct the fresh client from
the environment, then fold the per-row calls through it; the receiving
instance self passes through untouched. -/
def DIR_API_request (self : ClientState) (env : Env) (sid : Nat)
    (rows : List ExcelRow) : Except String (ClientState × List MatchCallRec) :=
  match DIR_API_new none none none env sid with
  | .error e => .error e
  | .ok fresh =>
    let (_, calls) := rows.foldl requestStep (fresh, [])
    .ok (self, calls)

/-- Effects of one legacy module-level convenience function. -/
inductive LegacyEffect where
  | deprecationWarning (fn : String)
  | constructClient
  | delegate (method : String)
  deriving DecidableEq

/-- The names exported at the top level of the package, transcribed from
dunsMatchAPI/__init__.py line 8. -/
def dunsMatchAPI_all : List String :=
  ["DIR_API", "initialize_database", "process_companies_to_json",
   "populate_database_from_json"]

/-- Modelled from the spec: the body of the legacy module-level function
initialize_database(url) is not under src/ (only its import and __all__ entry
in dunsMatchAPI/__init__.py are); per the spec it constructs a throwaway
Facade Client, delegates to the corresponding method, and emits a deprecation
warning. -/
def initialize_database_effects : List LegacyEffect :=
  [.deprecationWarning "initialize_database", .constructClient,
   .delegate "initialize_database"]

/-- Modelled from the spec: the body of the legacy module-level function
process_companies_to_json(...) is not under src/ (only its import and __all__
entry in dunsMatchAPI/__init__.py are); per the spec it constructs a throwaway
Facade Client, delegates to the corresponding method, and emits a deprecation
warning. -/
def process_companies_to_json_effects : List LegacyEffect :=
  [.deprecationWarning "process_companies_to_json", .constructClient,
   .delegate "process_companies_to_json"]

/-- Modelled from the spec: the body of the legacy module-level function
populate_database_from_json(...) is not under src/ (only its import and
__all__ entry in dunsMatchAPI/__init__.py are); per the spec it constructs a
throwaway Facade Client, delegates to the corresponding method, and emits a
deprecation warning. -/
def populate_database_from_json_effects : List LegacyEffect :=
  [.deprecationWarning "populate_database_from_json", .constructClient,
   .delegate "populate_database_from_json"]

/-- C9 counterexample: the claim says clean_value returns the empty string for
every floating or integer numeric value that is NaN or infinite, but for a
plain Python float infinity (which pd.isna does not flag and which is not an
instance of the NumPy types the isinstance check lists) the code returns its
string form "inf", not the empty string. -/
theorem C9_counterexample_python_inf :
    clean_value (PyVal.pyFloat FloatKind.inf) = "inf" ∧
    clean_value (PyVal.pyFloat FloatKind.inf) ≠ "" := by
  constructor
  · rfl
  · decide

/-- C9 (amended): clean_value returns the empty string exactly for
missing/NaN-like inputs (pd.isna: None and float NaN) and for NumPy
float64/float32/int64/int32 values that are NaN or infinite; every other
scalar — including a plain Python float that is infinite — is returned in its
plain string form (so a Python float infinity yields "inf"). -/
theorem C9_clean_value_characterization :
    (∀ v : PyVal,
      clean_value v =
        if pdIsna v || (isNpNumeric v && npNanOrInf v) then "" else pyStrOf v) ∧
    clean_value (PyVal.pyFloat FloatKind.inf) = "inf" := by
  constructor
  · intro v
    cases v with
    | none => rfl
    | pyBool b => rfl
    | pyInt n => rfl
    | pyFloat k => cases k <;> rfl
    | pyStr s => rfl
    | npFloat64 k => cases k <;> rfl
    | npFloat32 k => cases k <;> rfl
    | npInt64 n => rfl
    | npInt32 n => rfl
  · rfl

/-- C4 counterexample: the claim says a record whose country resolves to the
empty value after cleaning is rejected before any network request, but for a
NaN country (cleaned to the empty string) match_company still issues the GET
request, with an empty countryISOAlpha2Code parameter. -/
theorem C4_counterexample_empty_country :
    clean_value (PyVal.pyFloat FloatKind.nan) = "" ∧
    matchCompanyParams (PyVal.pyStr "Acme") (PyVal.pyFloat FloatKind.nan)
        (PyVal.pyStr "") =
      MatchAction.request
        [("name", "Acme"), ("countryISOAlpha2Code", ""), ("inLanguage", "auto")] := by
  constructor
  · rfl
  · rfl

/-- C4 (amended): Matcher.match_company rejects a record before any network
request exactly when company_name resolves to the empty value after
normalization by clean_value; an empty country is not checked and does not
prevent the request. -/
theorem C4_reject_iff_empty_name :
    ∀ company_name country address : PyVal,
      (matchCompanyParams company_name country address).isRejected = true ↔
        clean_value company_name = "" := by
  intro n c a
  unfold matchCompanyParams
  by_cases h : clean_value n = "" <;> simp [h, MatchAction.isRejected]

/-- C5: the package top level exports initialize_database,
process_companies_to_json and populate_database_from_json (per the __all__
list of dunsMatchAPI/__init__.py), and each legacy function (modelled from
the spec, since their bodies are not under src/) constructs a throwaway
Facade Client, delegates to its corresponding method, and emits a
deprecation warning. -/
theorem C5_legacy_functions :
    ("initialize_database" ∈ dunsMatchAPI_all ∧
     "process_companies_to_json" ∈ dunsMatchAPI_all ∧
     "populate_database_from_json" ∈ dunsMatchAPI_all) ∧
    (LegacyEffect.constructClient ∈ initialize_database_effects ∧
     LegacyEffect.delegate "initialize_database" ∈ initialize_database_effects ∧
     LegacyEffect.deprecationWarning "initialize_database" ∈ initialize_database_effects) ∧
    (LegacyEffect.constructClient ∈ process_companies_to_json_effects ∧
     LegacyEffect.delegate "process_companies_to_json" ∈ process_companies_to_json_effects ∧
     LegacyEffect.deprecationWarning "process_companies_to_json" ∈ process_companies_to_json_effects) ∧
    (LegacyEffect.constructClient ∈ populate_database_from_json_effects ∧
     LegacyEffect.delegate "populate_database_from_json" ∈ populate_database_from_json_effects ∧
     LegacyEffect.deprecationWarning "populate_database_from_json" ∈ populate_database_from_json_effects) := by
  decide

/-- C2 counterexample: the claim says extract_comprehensive_info nests
match_grade_components, match_data_profile and name_match_score inside the
match_quality sub-record, but for the empty candidate the match_quality
sub-dict contains none of them — they sit at the top level of the record. -/
theorem C2_counterexample_not_nested :
    jGet (jGetD (extract_comprehensive_info (JValue.obj [])) "match_quality" (.obj []))
        "match_grade_components" = none ∧
    jGet (jGetD (extract_comprehensive_info (JValue.obj [])) "match_quality" (.obj []))
        "match_data_profile" = none ∧
    jGet (jGetD (extract_comprehensive_info (JValue.obj [])) "match_quality" (.obj []))
        "name_match_score" = none ∧
    jGet (extract_comprehensive_info (JValue.obj [])) "match_grade_components" =
      some (.arr []) ∧
    jGet (extract_comprehensive_info (JValue.obj [])) "match_data_profile" =
      some (.str "") ∧
    jGet (extract_comprehensive_info (JValue.obj [])) "name_match_score" =
      some .null := by
  exact ⟨rfl, rfl, rfl, rfl, rfl, rfl⟩

/-- C2 (amended): for every provider match candidate, the record produced by
extract_comprehensive_info carries match_grade_components (the list of
component_type/component_rating pairs), match_data_profile and
name_match_score as top-level fields, siblings of the match_quality
sub-record, which itself holds exactly confidence_code (default 0),
match_grade and match_grade_components_count. -/
theorem C2_match_quality_layout :
    ∀ candidate : JValue,
      jGet (extract_comprehensive_info candidate) "match_quality" =
        some (.obj [
          ("confidence_code",
            jGetD (jGetD candidate "matchQualityInformation" (.obj []))
              "confidenceCode" (.num 0)),
          ("match_grade",
            jGetD (jGetD candidate "matchQualityInformation" (.obj []))
              "matchGrade" (.str "")),
          ("match_grade_components_count",
            jGetD (jGetD candidate "matchQualityInformation" (.obj []))
              "matchGradeComponentsCount" (.num 0))]) ∧
      jGet (extract_comprehensive_info candidate) "match_grade_components" =
        some (.arr ((asArr (jGetD (jGetD candidate "matchQualityInformation" (.obj []))
            "matchGradeComponents" (.arr []))).map (fun c => .obj [
          ("component_type", jGetD c "componentType" (.str "")),
          ("component_rating", jGetD c "componentRating" (.str ""))]))) ∧
      jGet (extract_comprehensive_info candidate) "match_data_profile" =
        some (jGetD (jGetD candidate "matchQualityInformation" (.obj []))
          "matchDataProfile" (.str "")) ∧
      jGet (extract_comprehensive_info candidate) "name_match_score" =
        some (jGetD (jGetD candidate "matchQualityInformation" (.obj []))
          "nameMatchScore" .null) := by
  intro candidate
  exact ⟨rfl, rfl, rfl, rfl⟩

/-- C8: in match_companies_from_excel, every input row whose matching call
raises an exception contributes exactly one output row — carrying
matched_duns equal to the string ERROR and full_response equal to the
exception message — spliced between the rows of the preceding and the
following inputs, so processing proceeds to the subsequent rows. -/
theorem C8_error_row :
    ∀ (pre post : List (ExcelRow × RowOutcome)) (r : ExcelRow) (msg : String),
      matchCompaniesRows (pre ++ (r, RowOutcome.exn msg) :: post) =
        matchCompaniesRows pre ++ errorRow r msg :: matchCompaniesRows post ∧
      (errorRow r msg).matched_duns = .str "ERROR" ∧
      (errorRow r msg).full_response = .str msg := by
  intro pre post r msg
  refine ⟨?_, rfl, rfl⟩
  simp [matchCompaniesRows, List.flatMap_append, rowResults]

/-- Helper for C1: the body of Matcher.match_company never lets a
RequestException escape — the transport-error branch and both HTTP-error
branches re-raise plain Exception, and the validation branch raises
ValueError — so the tenacity retry predicate can never match. -/
theorem matchCompanyOnce_no_requestExn :
    ∀ (company_name country address : PyVal) (r : HttpResp) (e : MatchExn),
      matchCompanyOnce company_name country address r = .error e →
      e.isRequestExn = false := by
  intro n c a r e h
  unfold matchCompanyOnce at h
  rcases hp : matchCompanyParams n c a with msg | ps <;> rw [hp] at h
  · cases h
    rfl
  · rcases r with msg | ⟨status, jsonBody, text⟩
    · cases h
      rfl
    · simp only [] at h
      split at h
      · split at h
        · cases h
        · split at h
          · cases h
            rfl
          · cases h
            rfl
      · rcases jsonBody with _ | j
        · cases h
          rfl
        · cases h

/-- C1: contrary to the retry declaration on Matcher.match_company
(stop_after_attempt(3) with retry_if_exception_type(RequestException)), a
network-transport-level failure of the outbound call is never retried: the
except branch at matcher.py line 116 catches the RequestException and
re-raises it as a plain Exception before it can reach the decorator, so every
call — the transport-failure case included — settles on attempt 1; at a
connection failure the caller sees the wrapped generic error immediately. -/
theorem C1_transport_error_not_retried :
    (∀ (responses : Nat → HttpResp) (company_name country address : PyVal),
      (match_company responses company_name country address).1 = 1) ∧
    match_company (fun _ => HttpResp.transportError "Connection refused")
        (.pyStr "Acme") (.pyStr "US") (.pyStr "") =
      (1, .error (.generic "Network error: Connection refused")) := by
  constructor
  · intro responses n c a
    unfold match_company retryGo
    rcases h : matchCompanyOnce n c a (responses 1) with e | v
    · simp [h, matchCompanyOnce_no_requestExn n c a (responses 1) e h]
    · simp [h]
  · rfl

/-- C7: a match request answered with HTTP 404 whose JSON body carries
error.errorCode equal to the string 20505 makes match_company return the
empty match list on its first attempt, raising no error. -/
theorem C7_404_no_match :
    ∀ (company_name country address : PyVal) (j : JValue) (text : String)
      (responses : Nat → HttpResp),
      clean_value company_name ≠ "" →
      responses 1 = HttpResp.resp 404 (some j) text →
      JValue.beq (jGetD (jGetD j "error" (.obj [])) "errorCode" (.str ""))
          (.str "20505") = true →
      match_company responses company_name country address = (1, .ok []) := by
  intro n c a j text responses hname hresp hcode
  unfold match_company retryGo
  have hbody : matchCompanyOnce n c a (responses 1) = .ok [] := by
    unfold matchCompanyOnce
    rcases hp : matchCompanyParams n c a with msg | ps
    · exfalso
      apply hname
      unfold matchCompanyParams at hp
      by_cases h0 : clean_value n = ""
      · exact h0
      · simp [h0] at hp
    · rw [hresp]
      simp [hcode]
  simp [hbody]

/-- Witness for C7 at a concrete no-match response body. -/
theorem C7_404_no_match_witness :
    clean_value (PyVal.pyStr "Acme") ≠ "" ∧
    match_company
        (fun _ => HttpResp.resp 404
          (some (.obj [("error", .obj [("errorCode", .str "20505")])])) "")
        (.pyStr "Acme") (.pyStr "US") (.pyStr "") = (1, .ok []) := by
  constructor
  · decide
  · exact C7_404_no_match (.pyStr "Acme") (.pyStr "US") (.pyStr "")
      (.obj [("error", .obj [("errorCode", .str "20505")])]) ""
      (fun _ => HttpResp.resp 404
        (some (.obj [("error", .obj [("errorCode", .str "20505")])])) "")
      (by decide) rfl rfl

/-- A concrete one-candidate match inside a success snapshot. -/
def sampleMatch : JValue :=
  .obj [("duns", .str "123456789"), ("primary_name", .str "Acme Inc")]

/-- A concrete well-formed success snapshot, as the Data Processor writes it. -/
def sampleSnapshot : JValue :=
  .obj [
    ("input_company_name", .str "Acme"),
    ("input_country", .str "US"),
    ("input_address", .str ""),
    ("matches", .arr [sampleMatch]),
    ("timestamp", .str "2024-01-01T00:00:00")]

/-- C3 counterexample: the claim says rows already inserted for earlier files
in the batch survive a later file's failure and are committed at the end, but
after processing a good snapshot followed by an unreadable file the committed
database holds no company row at all — the rollback discarded the first
file's rows — even though the good file alone would have produced one; the
failed file is still not counted (processed_count is 1). -/
theorem C3_counterexample_rollback_discards_earlier_files :
    (populate_from_json_files emptyDB [FileInput.parsed sampleSnapshot]).2.companies.length = 1 ∧
    (populate_from_json_files emptyDB
        [FileInput.parsed sampleSnapshot, FileInput.ioError]).2.companies.length = 0 ∧
    (populate_from_json_files emptyDB
        [FileInput.parsed sampleSnapshot, FileInput.ioError]).1 = 1 := by
  exact ⟨rfl, rfl, rfl⟩

/-- Helper for C3: a good file (readable, parsed to a dict) always increments
processed_count, whatever the session states are. -/
theorem fileStep_counted :
    ∀ (base work : DB) (f : FileInput), goodFile f = true →
      (fileStep base work f).2 = true := by
  intro base work f h
  rcases f with data | _
  · simp only [goodFile] at h
    by_cases he : jHasKey data "error" = true <;> simp [fileStep, h, he]
  · simp [goodFile] at h

/-- Helper for C3: starting the loop at any processed_count only shifts the
count; the final database state does not depend on the starting count. -/
theorem populateLoop_count_shift :
    ∀ (fs : List FileInput) (base work : DB) (c : Nat),
      populateLoop base fs work c =
        ((populateLoop base fs work 0).1 + c, (populateLoop base fs work 0).2) := by
  intro fs
  induction fs with
  | nil => intro base work c; simp [populateLoop]
  | cons f fs ih =>
    intro base work c
    rcases hstep : fileStep base work f with ⟨w', counted⟩
    have l1 : ∀ k, populateLoop base (f :: fs) work k =
        populateLoop base fs w' (if counted then k + 1 else k) := by
      intro k
      simp [populateLoop, hstep]
    cases counted with
    | true =>
      rw [l1 c, l1 0, if_pos rfl, if_pos rfl, ih base w' (c + 1), ih base w' (0 + 1)]
      simp only [Prod.mk.injEq]
      exact ⟨by omega, trivial⟩
    | false =>
      rw [l1 c, l1 0]
      simpa using ih base w' c

/-- Helper for C3: a file that processes without raising always increments
processed_count, so over failure-free files the count grows by their number. -/
theorem populateLoop_good_count :
    ∀ (fs : List FileInput) (base work : DB) (c : Nat),
      (∀ f ∈ fs, goodFile f = true) →
      (populateLoop base fs work c).1 = c + fs.length := by
  intro fs
  induction fs with
  | nil => intro base work c _; simp [populateLoop]
  | cons f fs ih =>
    intro base work c hgood
    have hf : goodFile f = true := hgood f (List.mem_cons_self f fs)
    have hfs : ∀ g ∈ fs, goodFile g = true := fun g hg => hgood g (List.mem_cons_of_mem f hg)
    rcases hstep : fileStep base work f with ⟨w', counted⟩
    have hcounted : counted = true := by
      have := fileStep_counted base work f hf
      rw [hstep] at this
      exact this
    subst hcounted
    have l1 : populateLoop base (f :: fs) work c = populateLoop base fs w' (c + 1) := by
      simp [populateLoop, hstep]
    rw [l1, ih base w' (c + 1) hfs]
    simp [List.length_cons]
    omega

/-- Helper for C3: consuming a failure-free prefix followed by a failing file
leaves the loop continuing on the remaining files from the rolled-back base
state, with the prefix counted and the failing file not. -/
theorem populateLoop_fail_resets :
    ∀ (pre : List FileInput) (base work : DB) (c : Nat) (post : List FileInput),
      (∀ f ∈ pre, goodFile f = true) →
      populateLoop base (pre ++ FileInput.ioError :: post) work c =
        populateLoop base post base (c + pre.length) := by
  intro pre
  induction pre with
  | nil =>
    intro base work c post _
    simp [populateLoop, fileStep]
  | cons f pre ih =>
    intro base work c post hgood
    have hf : goodFile f = true := hgood f (List.mem_cons_self f pre)
    have hpre : ∀ g ∈ pre, goodFile g = true := fun g hg => hgood g (List.mem_cons_of_mem f hg)
    rcases hstep : fileStep base work f with ⟨w', counted⟩
    have hcounted : counted = true := by
      have := fileStep_counted base work f hf
      rw [hstep] at this
      exact this
    subst hcounted
    have l1 : populateLoop base ((f :: pre) ++ FileInput.ioError :: post) work c =
        populateLoop base (pre ++ FileInput.ioError :: post) w' (c + 1) := by
      simp [populateLoop, hstep]
    rw [l1, ih base w' (c + 1) post hpre]
    congr 1
    simp [List.length_cons]
    omega

/-- C3 (amended): an exception while processing one JSON file triggers
session.rollback(), which discards every row still pending in the single
batch transaction — the rows of earlier files included, since nothing commits
before the end — after which processing continues with the next file from the
session's initial state; the failed file is not counted toward
processed_count. Formally: with failure-free files around one unreadable
file, the run returns the count of the surrounding files only, and the
committed database is exactly what populating the trailing files alone would
produce. -/
theorem C3_rollback_batch_wide :
    ∀ (db0 : DB) (pre post : List FileInput),
      (∀ f ∈ pre, goodFile f = true) →
      (∀ f ∈ post, goodFile f = true) →
      populate_from_json_files db0 (pre ++ FileInput.ioError :: post) =
        (pre.length + post.length, (populate_from_json_files db0 post).2) := by
  intro db0 pre post hpre hpost
  unfold populate_from_json_files
  rw [populateLoop_fail_resets pre db0 db0 0 post hpre]
  rw [populateLoop_count_shift post db0 db0 (0 + pre.length)]
  have hc : (populateLoop db0 post db0 0).1 = 0 + post.length :=
    populateLoop_good_count post db0 db0 0 hpost
  rw [hc]
  simp
  omega

/-- Witness for C3 (amended) at one good file before and one after the
unreadable file. -/
theorem C3_rollback_batch_wide_witness :
    populate_from_json_files emptyDB
        [FileInput.parsed sampleSnapshot, FileInput.ioError,
         FileInput.parsed sampleSnapshot] =
      (2, (populate_from_json_files emptyDB [FileInput.parsed sampleSnapshot]).2) := by
  exact C3_rollback_batch_wide emptyDB [FileInput.parsed sampleSnapshot]
    [FileInput.parsed sampleSnapshot] (by decide) (by decide)

/-- Helper for C6: when no company row carries the candidate's duns value,
processMatch appends exactly one company row, carrying that duns. -/
theorem processMatch_insert :
    ∀ (iN iC iA fd m : JValue) (db : DB),
      db.companies.find? (fun c => JValue.beq c.duns (jGetD m "duns" (.str ""))) = none →
      ∃ row : CompanyRow, row.duns = jGetD m "duns" (.str "") ∧
        (processMatch iN iC iA fd m db).companies = db.companies ++ [row] := by
  intro iN iC iA fd m db h
  refine ⟨{ id := db.nextCompanyId, duns := jGetD m "duns" (.str ""),
            primary_name := jGetD m "primary_name" (.str ""),
            operating_status_description :=
              jGetD (jGetD m "operating_status" (.obj [])) "description" (.str ""),
            operating_status_dnb_code :=
              jGetD (jGetD m "operating_status" (.obj [])) "dnb_code" .null,
            is_mail_undeliverable := jGetD m "is_mail_undeliverable" .null },
          rfl, ?_⟩
  simp [processMatch, h]

/-- Helper for C6: when the duns lookup finds an existing company row,
processMatch leaves the companies table unchanged. -/
theorem processMatch_found :
    ∀ (iN iC iA fd m : JValue) (db : DB) (c0 : CompanyRow),
      db.companies.find? (fun c => JValue.beq c.duns (jGetD m "duns" (.str ""))) = some c0 →
      (processMatch iN iC iA fd m db).companies = db.companies := by
  intro iN iC iA fd m db c0 h
  simp [processMatch, h]

/-- Helper for C6: processMatch always appends exactly one match result row,
whether or not the company already existed. -/
theorem processMatch_matchResults_len :
    ∀ (iN iC iA fd m : JValue) (db : DB),
      (processMatch iN iC iA fd m db).matchResults.length =
        db.matchResults.length + 1 := by
  intro iN iC iA fd m db
  rcases h : db.companies.find?
      (fun c => JValue.beq c.duns (jGetD m "duns" (.str ""))) with _ | c0 <;>
    simp [processMatch, h]

/-- C6: populating twice from the same one-candidate success snapshot whose
DUNS is absent from the starting database creates exactly one company row for
that DUNS — the second run finds it by duns lookup and neither inserts nor
updates, leaving the companies table identical — while each run appends one
match result row, so two match result rows are added over the two runs. -/
theorem C6_populate_twice :
    ∀ (db0 : DB) (data m : JValue),
      data.isObj = true →
      jHasKey data "error" = false →
      asArr (jGetD data "matches" (.arr [])) = [m] →
      db0.companies.find? (fun c => JValue.beq c.duns (jGetD m "duns" (.str ""))) = none →
      ((populate_from_json_files
          (populate_from_json_files db0 [FileInput.parsed data]).2
          [FileInput.parsed data]).2.companies =
        (populate_from_json_files db0 [FileInput.parsed data]).2.companies) ∧
      ((populate_from_json_files
          (populate_from_json_files db0 [FileInput.parsed data]).2
          [FileInput.parsed data]).2.companies.filter
            (fun c => JValue.beq c.duns (jGetD m "duns" (.str "")))).length = 1 ∧
      (populate_from_json_files
          (populate_from_json_files db0 [FileInput.parsed data]).2
          [FileInput.parsed data]).2.matchResults.length =
        db0.matchResults.length + 2 := by
  intro db0 data m hobj herr hms hnew
  have hrun : ∀ db : DB,
      (populate_from_json_files db [FileInput.parsed data]).2 =
        processFileData data db := by
    intro db
    simp [populate_from_json_files, populateLoop, fileStep, hobj, herr]
  have hpf : ∀ db : DB, processFileData data db =
      processMatch (jGetD data "input_company_name" (.str ""))
        (jGetD data "input_country" (.str ""))
        (jGetD data "input_address" (.str "")) data m
        { db with matchQueries := db.matchQueries ++ [{
            company_name := jGetD data "input_company_name" (.str "")
            country := jGetD data "input_country" (.str "")
            address := jGetD data "input_address" (.str "")
            total_matches := 1 }] } := by
    intro db
    simp [processFileData, hms]
  obtain ⟨row, hrowduns, hins⟩ :=
    processMatch_insert (jGetD data "input_company_name" (.str ""))
      (jGetD data "input_country" (.str ""))
      (jGetD data "input_address" (.str "")) data m
      { db0 with matchQueries := db0.matchQueries ++ [{
          company_name := jGetD data "input_company_name" (.str "")
          country := jGetD data "input_country" (.str "")
          address := jGetD data "input_address" (.str "")
          total_matches := 1 }] } hnew
  have hprow : (fun c => JValue.beq c.duns (jGetD m "duns" (.str ""))) row = true := by
    simp only [hrowduns]
    exact JValue.beq_refl _
  have hdb1c : (populate_from_json_files db0 [FileInput.parsed data]).2.companies =
      db0.companies ++ [row] := by
    rw [hrun db0, hpf db0]
    exact hins
  have hfind2 : (populate_from_json_files db0 [FileInput.parsed data]).2.companies.find?
      (fun c => JValue.beq c.duns (jGetD m "duns" (.str ""))) = some row := by
    rw [hdb1c, List.find?_append, hnew]
    simp [List.find?_cons, hprow]
  have hdb2c : (populate_from_json_files
      (populate_from_json_files db0 [FileInput.parsed data]).2
      [FileInput.parsed data]).2.companies =
      (populate_from_json_files db0 [FileInput.parsed data]).2.companies := by
    rw [hrun, hpf]
    exact processMatch_found _ _ _ _ _ _ row hfind2
  refine ⟨hdb2c, ?_, ?_⟩
  · rw [hdb2c, hdb1c, List.filter_append]
    have hnil : db0.companies.filter
        (fun c => JValue.beq c.duns (jGetD m "duns" (.str ""))) = [] := by
      rw [List.filter_eq_nil_iff]
      intro x hx
      have := List.find?_eq_none.mp hnew x hx
      simpa using this
    rw [hnil]
    simp [List.filter_cons, hprow]
  · have hmr1 : (populate_from_json_files db0 [FileInput.parsed data]).2.matchResults.length =
        db0.matchResults.length + 1 := by
      rw [hrun db0, hpf db0]
      exact processMatch_matchResults_len _ _ _ _ _ _
    have hmr2 : (populate_from_json_files
        (populate_from_json_files db0 [FileInput.parsed data]).2
        [FileInput.parsed data]).2.matchResults.length =
        (populate_from_json_files db0 [FileInput.parsed data]).2.matchResults.length + 1 := by
      rw [hrun, hpf]
      exact processMatch_matchResults_len _ _ _ _ _ _
    omega

/-- Witness for C6 at the concrete sample snapshot over the empty database. -/
theorem C6_populate_twice_witness :
    ((populate_from_json_files
        (populate_from_json_files emptyDB [FileInput.parsed sampleSnapshot]).2
        [FileInput.parsed sampleSnapshot]).2.companies =
      (populate_from_json_files emptyDB [FileInput.parsed sampleSnapshot]).2.companies) ∧
    ((populate_from_json_files
        (populate_from_json_files emptyDB [FileInput.parsed sampleSnapshot]).2
        [FileInput.parsed sampleSnapshot]).2.companies.filter
          (fun c => JValue.beq c.duns (jGetD sampleMatch "duns" (.str "")))).length = 1 ∧
    (populate_from_json_files
        (populate_from_json_files emptyDB [FileInput.parsed sampleSnapshot]).2
        [FileInput.parsed sampleSnapshot]).2.matchResults.length =
      emptyDB.matchResults.length + 2 :=
  C6_populate_twice emptyDB sampleSnapshot sampleMatch rfl rfl rfl rfl

/-- Helper for C10: folding the per-row calls preserves the fresh client's
credentials, URL and session, keeps its token in the symbolic
env-credential-derived form, and stamps every emitted call with those
values — calls already accumulated are left as they are. -/
theorem requestStep_fold_calls :
    ∀ (rows : List ExcelRow) (st : ClientState) (acc : List MatchCallRec)
      (K S U : String) (sid : Nat),
      st.api_key = K → st.api_secret = S → st.api_url = U → st.session = sid →
      (st.access_token = none ∨ st.access_token = some ("token:" ++ K ++ ":" ++ S)) →
      ∀ call ∈ (rows.foldl requestStep (st, acc)).2,
        call ∈ acc ∨
          (call.key = K ∧ call.secret = S ∧ call.url = U ∧ call.session = sid ∧
           call.bearer = "token:" ++ K ++ ":" ++ S) := by
  intro rows
  induction rows with
  | nil =>
    intro st acc K S U sid hK hS hU hsid htok call hmem
    exact Or.inl hmem
  | cons r rows ih =>
    intro st acc K S U sid hK hS hU hsid htok call hmem
    have hstep : List.foldl requestStep (st, acc) (r :: rows) =
        List.foldl requestStep (requestStep (st, acc) r) rows := rfl
    rw [hstep] at hmem
    have hens : (ensureAuthenticated st).api_key = K ∧
        (ensureAuthenticated st).api_secret = S ∧
        (ensureAuthenticated st).api_url = U ∧
        (ensureAuthenticated st).session = sid ∧
        (ensureAuthenticated st).access_token = some ("token:" ++ K ++ ":" ++ S) := by
      rcases htok with h0 | h0 <;>
        simp [ensureAuthenticated, h0, hK, hS, hU, hsid]
    obtain ⟨eK, eS, eU, esid, etok⟩ := hens
    have hreq : requestStep (st, acc) r =
        (ensureAuthenticated st,
         acc ++ [{ key := (ensureAuthenticated st).api_key,
                   secret := (ensureAuthenticated st).api_secret,
                   url := (ensureAuthenticated st).api_url,
                   bearer := (ensureAuthenticated st).access_token.getD "",
                   session := (ensureAuthenticated st).session,
                   row := r }] ) := rfl
    rw [hreq] at hmem
    have := ih (ensureAuthenticated st)
      (acc ++ [{ key := (ensureAuthenticated st).api_key,
                 secret := (ensureAuthenticated st).api_secret,
                 url := (ensureAuthenticated st).api_url,
                 bearer := (ensureAuthenticated st).access_token.getD "",
                 session := (ensureAuthenticated st).session,
                 row := r }])
      K S U sid eK eS eU esid (Or.inr etok) call hmem
    rcases this with hin | hprops
    · rcases List.mem_append.mp hin with hin0 | hin1
      · exact Or.inl hin0
      · right
        have hcall : call =
            { key := (ensureAuthenticated st).api_key,
              secret := (ensureAuthenticated st).api_secret,
              url := (ensureAuthenticated st).api_url,
              bearer := (ensureAuthenticated st).access_token.getD "",
              session := (ensureAuthenticated st).session,
              row := r } := by simpa using hin1
        rw [hcall]
        simp [eK, eS, eU, esid, etok]
    · exact Or.inr hprops

/-- C10: DIR_API.request issues every per-row matching call through a freshly
constructed client whose credentials and URL come from the environment
variables and whose session and (symbolic) bearer token belong to that fresh
instance; the instance the method was invoked on is returned unchanged — its
credentials, cached token and session are neither consulted nor mutated. -/
theorem C10_request_uses_fresh_client :
    ∀ (self : ClientState) (env : Env) (sid : Nat) (rows : List ExcelRow)
      (out : ClientState × List MatchCallRec),
      DIR_API_request self env sid rows = .ok out →
      out.1 = self ∧
      ∀ call ∈ out.2,
        call.key = (pyOr none env.dnbApiKey).getD "" ∧
        call.secret = (pyOr none env.dnbApiSecret).getD "" ∧
        call.url = env.dnbApiUrl.getD "https://plus.dnb.com" ∧
        call.session = sid ∧
        call.bearer = "token:" ++ (pyOr none env.dnbApiKey).getD "" ++ ":" ++
          (pyOr none env.dnbApiSecret).getD "" := by
  intro self env sid rows out hok
  unfold DIR_API_request at hok
  rcases hnew : DIR_API_new none none none env sid with e | fresh
  · rw [hnew] at hok
    cases hok
  · rw [hnew] at hok
    have hfresh : fresh =
        { api_key := (pyOr none env.dnbApiKey).getD "",
          api_secret := (pyOr none env.dnbApiSecret).getD "",
          api_url := (pyOr none (some (env.dnbApiUrl.getD "https://plus.dnb.com"))).getD "",
          access_token := none, session := sid } := by
      unfold DIR_API_new at hnew
      by_cases hcred : (!pyTruthy (pyOr none env.dnbApiKey) ||
          !pyTruthy (pyOr none env.dnbApiSecret)) = true
      · rw [if_pos hcred] at hnew
        cases hnew
      · rw [if_neg hcred] at hnew
        cases hnew
        rfl
    simp only [] at hok
    cases hok
    refine ⟨rfl, ?_⟩
    intro call hmem
    have hcalls := requestStep_fold_calls rows fresh []
      ((pyOr none env.dnbApiKey).getD "")
      ((pyOr none env.dnbApiSecret).getD "")
      (env.dnbApiUrl.getD "https://plus.dnb.com") sid
      (by rw [hfresh]) (by rw [hfresh])
      (by rw [hfresh]; simp [pyOr]) (by rw [hfresh])
      (by rw [hfresh]; exact Or.inl rfl) call hmem
    rcases hcalls with hin | hprops
    · simp at hin
    · exact hprops

/-- A concrete calling instance with explicit credentials, a cached token and
its own session, distinct from anything in the environment. -/
def c10SelfExample : ClientState :=
  { api_key := "explicit-key", api_secret := "explicit-secret",
    api_url := "https://example.test", access_token := some "cached-token",
    session := 99 }

/-- A concrete environment for the fresh client built inside request. -/
def c10EnvExample : Env :=
  { dnbApiKey := some "env-key", dnbApiSecret := some "env-secret",
    dnbApiUrl := none }

/-- A concrete input row for the batch. -/
def c10RowExample : ExcelRow :=
  { company_name := "Acme", country := "US", address := "" }

/-- The single call the batch issues on that input, stamped with the fresh
client's env-derived credentials, default URL, derived token and session. -/
def c10CallExample : MatchCallRec :=
  { key := "env-key", secret := "env-secret", url := "https://plus.dnb.com",
    bearer := "token:" ++ "env-key" ++ ":" ++ "env-secret", session := 7,
    row := c10RowExample }

/-- Witness for C10 at the concrete instance, environment and one-row batch. -/
theorem C10_request_uses_fresh_client_witness :
    (c10SelfExample, [c10CallExample]).1 = c10SelfExample ∧
    ∀ call ∈ (c10SelfExample, [c10CallExample]).2,
      call.key = (pyOr none c10EnvExample.dnbApiKey).getD "" ∧
      call.secret = (pyOr none c10EnvExample.dnbApiSecret).getD "" ∧
      call.url = c10EnvExample.dnbApiUrl.getD "https://plus.dnb.com" ∧
      call.session = 7 ∧
      call.bearer = "token:" ++ (pyOr none c10EnvExample.dnbApiKey).getD "" ++ ":" ++
        (pyOr none c10EnvExample.dnbApiSecret).getD "" :=
  C10_request_uses_fresh_client c10SelfExample c10EnvExample 7 [c10RowExample]
    (c10SelfExample, [c10CallExample]) rfl
